import Mathlib

/-!
Verification of the user-facing authentication and voice surface of the
steamworks binding (`src/user.rs`).

Modelling conventions:

* Platform result codes cross the FFI boundary as flat integers; we model
  them as `Nat`, with the numeric values taken from the declaration order
  of the corresponding `sys` enumerations (`EBeginAuthSessionResult`,
  `EVoiceResult`, `EAuthSessionResponse`), which the source matches on in
  exactly that order starting from the success code `0`.
* Each wrapper's `match res { ... _ => unreachable!() }` is modelled as a
  function into `Option`: `some` is a value actually returned to the
  caller, `none` is the `unreachable!()` arm, i.e. a process-aborting
  panic.  The final pattern `_ + k` below is the source's wildcard arm:
  it covers every code not listed before it.
* 64-bit identities (`SteamId`, the `m_unAll64Bits` payload fields) are
  modelled as `Nat`; the source copies them verbatim, with no arithmetic.
* Buffers are `List Nat` (byte sequences); an FFI out-parameter is
  modelled by passing its pre-call value in and returning its post-call
  value.
-/

/-- Errors from `begin_authentication_session` (`AuthSessionError` in the
source). -/
inductive AuthSessionError
  | InvalidTicket
  | DuplicateRequest
  | InvalidVersion
  | GameMismatch
  | ExpiredTicket
  deriving DecidableEq, Repr

/-- Errors from `ValidateAuthTicketResponse` (`AuthSessionValidateError`
in the source). -/
inductive AuthSessionValidateError
  | UserNotConnectedToSteam
  | NoLicenseOrExpired
  | VACBanned
  | LoggedInElseWhere
  | VACCheckTimedOut
  | AuthTicketCancelled
  | AuthTicketInvalidAlreadyUsed
  | AuthTicketInvalid
  | PublisherIssuedBan
  deriving DecidableEq, Repr

/-- Errors shared by the three voice operations (`VoiceResult` in the
source). -/
inductive VoiceResult
  | NotInitialized
  | NotRecording
  | NoData
  | BufferTooSmall
  | DataCorrupted
  | Restricted
  deriving DecidableEq, Repr

/-- `begin_authentication_session` (src/user.rs:67-99).  The wrapper
forwards `user` and `ticket` to the platform unchanged and translates the
flat result code `res` returned by `SteamAPI_ISteamUser_BeginAuthSession`.
Codes follow `EBeginAuthSessionResult`: OK = 0, InvalidTicket = 1,
DuplicateRequest = 2, InvalidVersion = 3, GameMismatch = 4,
ExpiredTicket = 5; any other code hits `unreachable!()` (`none`). -/
def begin_authentication_session (user : Nat) (ticket : List Nat) (res : Nat) :
    Option (Except AuthSessionError Unit) :=
  match user, ticket, res with
  | _, _, 0 => some (.ok ())
  | _, _, 1 => some (.error .InvalidTicket)
  | _, _, 2 => some (.error .DuplicateRequest)
  | _, _, 3 => some (.error .InvalidVersion)
  | _, _, 4 => some (.error .GameMismatch)
  | _, _, 5 => some (.error .ExpiredTicket)
  | _, _, _ + 6 => none

/-- `end_authentication_session` (src/user.rs:106-110): forwards the
identity to `SteamAPI_ISteamUser_EndAuthSession` and returns unit.  It
reads and writes no local state and has no failure path. -/
def end_authentication_session (user : Nat) : Unit :=
  match user with
  | _ => ()

/-- The result-code translation in `get_available_voice`
(src/user.rs:128-149).  Codes follow `EVoiceResult`: OK = 0,
NotInitialized = 1, NotRecording = 2, NoData = 3, BufferTooSmall = 4,
DataCorrupted = 5, Restricted = 6; any other code hits `unreachable!()`. -/
def get_available_voice_translate (res : Nat) : Option (Except VoiceResult Unit) :=
  match res with
  | 0 => some (.ok ())
  | 1 => some (.error .NotInitialized)
  | 2 => some (.error .NotRecording)
  | 3 => some (.error .NoData)
  | 4 => some (.error .BufferTooSmall)
  | 5 => some (.error .DataCorrupted)
  | 6 => some (.error .Restricted)
  | _ + 7 => none

/-- The result-code translation in `get_voice` (src/user.rs:201-222); the
source repeats the same seven-arm match as `get_available_voice`. -/
def get_voice_translate (res : Nat) : Option (Except VoiceResult Unit) :=
  match res with
  | 0 => some (.ok ())
  | 1 => some (.error .NotInitialized)
  | 2 => some (.error .NotRecording)
  | 3 => some (.error .NoData)
  | 4 => some (.error .BufferTooSmall)
  | 5 => some (.error .DataCorrupted)
  | 6 => some (.error .Restricted)
  | _ + 7 => none

/-- The result-code translation in `decompress_voice`
(src/user.rs:250-271); again the same seven-arm match. -/
def decompress_voice_translate (res : Nat) : Option (Except VoiceResult Unit) :=
  match res with
  | 0 => some (.ok ())
  | 1 => some (.error .NotInitialized)
  | 2 => some (.error .NotRecording)
  | 3 => some (.error .NoData)
  | 4 => some (.error .BufferTooSmall)
  | 5 => some (.error .DataCorrupted)
  | 6 => some (.error .Restricted)
  | _ + 7 => none

/-- `get_available_voice` (src/user.rs:119-151): passes the caller's
`pcb_compressed` pointer straight to the platform (which writes it) and
translates the returned code.  `pcbOut` is the value the platform left in
the out-parameter. -/
def get_available_voice (res : Nat) (pcbOut : Nat) :
    Option (Except VoiceResult Unit) × Nat :=
  (get_available_voice_translate res, pcbOut)

/-- `authentication_session_ticket` (src/user.rs:33-46): allocates a
1024-byte zeroed buffer, lets `SteamAPI_ISteamUser_GetAuthSessionTicket`
write into it (`ffiWritten` is the prefix the platform writes, bounded by
the 1024-byte allocation it is given) and report `ffiLen`, then truncates
the buffer to `ffiLen` (`Vec::truncate`, i.e. `List.take`) and returns the
handle/bytes pair.  The Rust signature has no error path. -/
def authentication_session_ticket (ffiHandle : Nat) (ffiWritten : List Nat)
    (ffiLen : Nat) : Nat × List Nat :=
  let buf : List Nat := (ffiWritten ++ List.replicate 1024 0).take 1024
  (ffiHandle, buf.take ffiLen)

/-- Raw payload `sys::ValidateAuthTicketResponse_t`: two 64-bit identities
and a flat `EAuthSessionResponse` code. -/
structure ValidateAuthTicketResponse_t where
  m_SteamID : Nat
  m_eAuthSessionResponse : Nat
  m_OwnerSteamID : Nat
  deriving DecidableEq, Repr

/-- Decoded `ValidateAuthTicketResponse` (src/user.rs:404-413). -/
structure ValidateAuthTicketResponse where
  steam_id : Nat
  response : Except AuthSessionValidateError Unit
  owner_steam_id : Nat
  deriving Repr

/-- The response-code translation inside
`ValidateAuthTicketResponse::from_raw` (src/user.rs:424-454).  Codes
follow `EAuthSessionResponse`: OK = 0, UserNotConnectedToSteam = 1,
NoLicenseOrExpired = 2, VACBanned = 3, LoggedInElseWhere = 4,
VACCheckTimedOut = 5, AuthTicketCanceled = 6,
AuthTicketInvalidAlreadyUsed = 7, AuthTicketInvalid = 8,
PublisherIssuedBan = 9; any other code hits `unreachable!()`. -/
def validate_response_translate (res : Nat) :
    Option (Except AuthSessionValidateError Unit) :=
  match res with
  | 0 => some (.ok ())
  | 1 => some (.error .UserNotConnectedToSteam)
  | 2 => some (.error .NoLicenseOrExpired)
  | 3 => some (.error .VACBanned)
  | 4 => some (.error .LoggedInElseWhere)
  | 5 => some (.error .VACCheckTimedOut)
  | 6 => some (.error .AuthTicketCancelled)
  | 7 => some (.error .AuthTicketInvalidAlreadyUsed)
  | 8 => some (.error .AuthTicketInvalid)
  | 9 => some (.error .PublisherIssuedBan)
  | _ + 10 => none

/-- `ValidateAuthTicketResponse::from_raw` (src/user.rs:419-456): copies
`m_SteamID.m_steamid.m_unAll64Bits` into `steam_id` and
`m_OwnerSteamID.m_steamid.m_unAll64Bits` into `owner_steam_id` verbatim,
and translates the response code; the `unreachable!()` in the response
match aborts construction of the whole value (`none`). -/
def ValidateAuthTicketResponse.from_raw (val : ValidateAuthTicketResponse_t) :
    Option ValidateAuthTicketResponse :=
  match validate_response_translate val.m_eAuthSessionResponse with
  | some r =>
      some { steam_id := val.m_SteamID
             response := r
             owner_steam_id := val.m_OwnerSteamID }
  | none => none

/-- Modelled from the spec: the translated result code carried by the
connectivity events.  The `From<sys::EResult> for SteamError` conversion
used by `SteamServerConnectFailure::from_raw` lives outside `src/`; the
spec only requires the reason to be a translated result code, so we carry
the raw code. -/
structure SteamError where
  code : Nat
  deriving DecidableEq, Repr

/-- Raw payload `sys::SteamServerConnectFailure_t`. -/
structure SteamServerConnectFailure_t where
  m_eResult : Nat
  m_bStillRetrying : Bool
  deriving DecidableEq, Repr

/-- Decoded `SteamServerConnectFailure` (src/user.rs:494-501). -/
structure SteamServerConnectFailure where
  reason : SteamError
  still_retrying : Bool
  deriving DecidableEq, Repr

/-- `SteamServerConnectFailure::from_raw` (src/user.rs:507-513): translates
`m_eResult` into the reason and copies `m_bStillRetrying` verbatim. -/
def SteamServerConnectFailure.from_raw (val : SteamServerConnectFailure_t) :
    SteamServerConnectFailure :=
  { reason := { code := val.m_eResult }
    still_retrying := val.m_bStillRetrying }

/-- Platform-side condition at the moment of a voice call: a non-size
failure the platform chooses to report (NotInitialized = 1,
NotRecording = 2, DataCorrupted = 5, Restricted = 6, ...), and the pending
compressed frame waiting in the recording buffer. -/
structure VoicePlatform where
  abnormal : Option Nat
  avail : List Nat
  deriving Repr

/-- What a raw platform voice call leaves behind: the flat result code,
the caller's destination buffer and bytes-written out-parameter after the
call, and which codec path the platform took. -/
structure VoiceRaw where
  res : Nat
  destAfter : List Nat
  bytesAfter : Nat
  uncompressedPathUsed : Bool
  deriving Repr

/-- Modelled from the spec: `SteamAPI_ISteamUser_GetVoice` at its call
boundary (the platform body is external to this repository; spec §4.4 and
§8 specify it).  An abnormal condition is reported as-is; an empty buffer
yields NoData (3); a destination smaller than the pending frame yields
BufferTooSmall (4) with the destination and bytes-written untouched
(all-or-nothing); otherwise the frame is copied and its length reported.
`wantCompressed = false` would take the deprecated uncompressed path. -/
def platformGetVoice (p : VoicePlatform) (wantCompressed : Bool)
    (dest : List Nat) (bytes : Nat) : VoiceRaw :=
  let path := !wantCompressed
  match p.abnormal with
  | some c => ⟨c, dest, bytes, path⟩
  | none =>
      if p.avail.isEmpty then ⟨3, dest, bytes, path⟩
      else if dest.length < p.avail.length then ⟨4, dest, bytes, path⟩
      else ⟨0, p.avail ++ dest.drop p.avail.length, p.avail.length, path⟩

/-- What `get_voice` gives back to its caller: the translated result
(`none` is the `unreachable!()` panic), the caller-visible buffer and
bytes-written values, and — for auditing the call the wrapper makes — the
`bWantCompressed` argument it passed and the path the platform took. -/
structure GetVoiceResult where
  result : Option (Except VoiceResult Unit)
  destAfter : List Nat
  bytesAfter : Nat
  wantCompressed : Bool
  uncompressedPathUsed : Bool
  deriving Repr

/-- `get_voice` (src/user.rs:187-224): calls the platform with
`bWantCompressed` hard-coded to `true`, the caller's buffer pointer and
length, and the bytes-written pointer (no uncompressed buffer exists in
the call), then translates the result code.  The wrapper itself never
writes the buffer or the out-parameter. -/
def get_voice (p : VoicePlatform) (dest : List Nat) (bytes : Nat) :
    GetVoiceResult :=
  let raw := platformGetVoice p true dest bytes
  { result := get_voice_translate raw.res
    destAfter := raw.destAfter
    bytesAfter := raw.bytesAfter
    wantCompressed := true
    uncompressedPathUsed := raw.uncompressedPathUsed }

/-- Modelled from the spec: `SteamAPI_ISteamUser_DecompressVoice` at its
call boundary (spec §4.4 and §8).  `decoded` is the codec's output for the
given compressed input and sample rate (the codec internals are a spec
non-goal, so it is a parameter).  An abnormal condition (DataCorrupted,
NotInitialized, ...) is reported as-is; a destination smaller than the
decoded output yields BufferTooSmall (4) with destination and
bytes-written untouched (all-or-nothing); otherwise the output is written
and its length reported. -/
def platformDecompressVoice (abnormal : Option Nat) (decoded : List Nat)
    (dest : List Nat) (bytes : Nat) : VoiceRaw :=
  match abnormal with
  | some c => ⟨c, dest, bytes, false⟩
  | none =>
      if dest.length < decoded.length then ⟨4, dest, bytes, false⟩
      else ⟨0, decoded ++ dest.drop decoded.length, decoded.length, false⟩

/-- What `decompress_voice` gives back to its caller. -/
structure DecompressVoiceResult where
  result : Option (Except VoiceResult Unit)
  destAfter : List Nat
  bytesAfter : Nat
  deriving Repr

/-- `decompress_voice` (src/user.rs:234-273): forwards the compressed
bytes, the caller's buffer, the bytes-written pointer and the desired
sample rate to the platform and translates the result code.  `abnormal`
and `decoded` parametrise the external platform as in
`platformDecompressVoice`; `compressed` and `rate` are forwarded
unchanged and the wrapper computes nothing from them. -/
def decompress_voice (abnormal : Option Nat) (decoded : List Nat)
    (compressed : List Nat) (dest : List Nat) (bytes : Nat) (rate : Nat) :
    DecompressVoiceResult :=
  match compressed, rate with
  | _, _ =>
      let raw := platformDecompressVoice abnormal decoded dest bytes
      { result := decompress_voice_translate raw.res
        destAfter := raw.destAfter
        bytesAfter := raw.bytesAfter }

/-- Outcome of one step of the C7 scenario, as observed locally. -/
inductive StepOutcome
  | accepted
  | localPanic
  | sessionNotFound
  deriving DecidableEq, Repr

/-- The spec §8 scenario: `begin_authentication_session` accepted by the
platform (code 0), then a Validation Outcome event for the same identity
carrying `LoggedInElseWhere` (code 4), then `end_authentication_session`
for that identity.  Each entry records whether the step completed locally
(`accepted`), hit a panic path (`localPanic`), or reported a missing
session (`sessionNotFound` — no code path can produce it, since the core
keeps no session table; it is listed to make that observable). -/
def scenarioSteps (id : Nat) (ticket : List Nat) : List StepOutcome :=
  [ match begin_authentication_session id ticket 0 with
    | some _ => .accepted
    | none => .localPanic,
    match ValidateAuthTicketResponse.from_raw ⟨id, 4, id⟩ with
    | some _ => .accepted
    | none => .localPanic,
    match end_authentication_session id with
    | () => .accepted ]

/-! Helper lemmas: full case analyses of the result-code translations. -/

lemma begin_auth_ok_iff (u : Nat) (t : List Nat) (c : Nat) :
    begin_authentication_session u t c = some (.ok ()) ↔ c = 0 := by
  constructor
  · intro h
    rcases Nat.lt_or_ge c 6 with hc | hc
    · interval_cases c
      · rfl
      all_goals simp [begin_authentication_session] at h
    · obtain ⟨k, rfl⟩ := Nat.exists_eq_add_of_le hc
      rw [Nat.add_comm] at h
      simp [begin_authentication_session] at h
  · rintro rfl
    rfl

lemma get_available_voice_ok_iff (c : Nat) :
    get_available_voice_translate c = some (.ok ()) ↔ c = 0 := by
  constructor
  · intro h
    rcases Nat.lt_or_ge c 7 with hc | hc
    · interval_cases c
      · rfl
      all_goals simp [get_available_voice_translate] at h
    · obtain ⟨k, rfl⟩ := Nat.exists_eq_add_of_le hc
      rw [Nat.add_comm] at h
      simp [get_available_voice_translate] at h
  · rintro rfl
    rfl

lemma voice_translates_agree (c : Nat) :
    get_voice_translate c = get_available_voice_translate c
    ∧ decompress_voice_translate c = get_available_voice_translate c := by
  rcases Nat.lt_or_ge c 7 with hc | hc
  · interval_cases c <;> exact ⟨rfl, rfl⟩
  · obtain ⟨k, rfl⟩ := Nat.exists_eq_add_of_le hc
    rw [Nat.add_comm]
    exact ⟨rfl, rfl⟩

lemma validate_translate_ok_iff (c : Nat) :
    validate_response_translate c = some (.ok ()) ↔ c = 0 := by
  constructor
  · intro h
    rcases Nat.lt_or_ge c 10 with hc | hc
    · interval_cases c
      · rfl
      all_goals simp [validate_response_translate] at h
    · obtain ⟨k, rfl⟩ := Nat.exists_eq_add_of_le hc
      rw [Nat.add_comm] at h
      simp [validate_response_translate] at h
  · rintro rfl
    rfl

lemma from_raw_response (val : ValidateAuthTicketResponse_t) :
    (ValidateAuthTicketResponse.from_raw val).map (fun v => v.response)
      = validate_response_translate val.m_eAuthSessionResponse := by
  unfold ValidateAuthTicketResponse.from_raw
  cases validate_response_translate val.m_eAuthSessionResponse <;> rfl

/-- Claim C2: `begin_authentication_session` returns `Ok(())` exactly when
the platform call reports success (code 0), and each listed
`EBeginAuthSessionResult` error code maps to its corresponding
`AuthSessionError` variant from the closed five-element set. -/
theorem C2_begin_authentication_session_mapping :
    ∀ (u : Nat) (t : List Nat),
      (∀ c, begin_authentication_session u t c = some (.ok ()) ↔ c = 0)
      ∧ begin_authentication_session u t 1 = some (.error .InvalidTicket)
      ∧ begin_authentication_session u t 2 = some (.error .DuplicateRequest)
      ∧ begin_authentication_session u t 3 = some (.error .InvalidVersion)
      ∧ begin_authentication_session u t 4 = some (.error .GameMismatch)
      ∧ begin_authentication_session u t 5 = some (.error .ExpiredTicket) :=
  fun u t => ⟨begin_auth_ok_iff u t, rfl, rfl, rfl, rfl, rfl⟩

/-- Claim C2 witness: the mapping evaluated at concrete inputs. -/
theorem C2_witness :
    begin_authentication_session 42 [1, 2, 3] 0 = some (.ok ())
    ∧ begin_authentication_session 42 [1, 2, 3] 5 = some (.error .ExpiredTicket) :=
  ⟨((C2_begin_authentication_session_mapping 42 [1, 2, 3]).1 0).mpr rfl,
    (C2_begin_authentication_session_mapping 42 [1, 2, 3]).2.2.2.2.2⟩

/-- Claim C3: the Validation Outcome decoder maps response code 0 to
`Ok(())` and each of the nine listed `EAuthSessionResponse` error codes to
its corresponding `AuthSessionValidateError` variant. -/
theorem C3_validate_response_mapping :
    (∀ val, (ValidateAuthTicketResponse.from_raw val).map (fun v => v.response)
        = validate_response_translate val.m_eAuthSessionResponse)
    ∧ (∀ c, validate_response_translate c = some (.ok ()) ↔ c = 0)
    ∧ validate_response_translate 1 = some (.error .UserNotConnectedToSteam)
    ∧ validate_response_translate 2 = some (.error .NoLicenseOrExpired)
    ∧ validate_response_translate 3 = some (.error .VACBanned)
    ∧ validate_response_translate 4 = some (.error .LoggedInElseWhere)
    ∧ validate_response_translate 5 = some (.error .VACCheckTimedOut)
    ∧ validate_response_translate 6 = some (.error .AuthTicketCancelled)
    ∧ validate_response_translate 7 = some (.error .AuthTicketInvalidAlreadyUsed)
    ∧ validate_response_translate 8 = some (.error .AuthTicketInvalid)
    ∧ validate_response_translate 9 = some (.error .PublisherIssuedBan) :=
  ⟨from_raw_response, validate_translate_ok_iff,
    rfl, rfl, rfl, rfl, rfl, rfl, rfl, rfl, rfl⟩

/-- Claim C3 witness: the decoder evaluated at a concrete payload. -/
theorem C3_witness :
    (ValidateAuthTicketResponse.from_raw ⟨5, 0, 5⟩).map (fun v => v.response)
      = validate_response_translate 0
    ∧ validate_response_translate 0 = some (.ok ()) :=
  ⟨C3_validate_response_mapping.1 ⟨5, 0, 5⟩,
    (C3_validate_response_mapping.2.1 0).mpr rfl⟩

/-- Claim C9: `get_available_voice` returns `Ok(())` exactly when the
platform reports success (code 0) and maps each listed `EVoiceResult`
error code to its corresponding `VoiceResult` variant of the closed
six-element set; `get_voice` and `decompress_voice` translate every code
identically. -/
theorem C9_voice_result_mapping :
    (∀ c pcb, (get_available_voice c pcb).1 = some (.ok ()) ↔ c = 0)
    ∧ (∀ pcb, (get_available_voice 1 pcb).1 = some (.error .NotInitialized)
        ∧ (get_available_voice 2 pcb).1 = some (.error .NotRecording)
        ∧ (get_available_voice 3 pcb).1 = some (.error .NoData)
        ∧ (get_available_voice 4 pcb).1 = some (.error .BufferTooSmall)
        ∧ (get_available_voice 5 pcb).1 = some (.error .DataCorrupted)
        ∧ (get_available_voice 6 pcb).1 = some (.error .Restricted))
    ∧ (∀ c, get_voice_translate c = get_available_voice_translate c
        ∧ decompress_voice_translate c = get_available_voice_translate c) :=
  ⟨fun c _ => get_available_voice_ok_iff c,
    fun _ => ⟨rfl, rfl, rfl, rfl, rfl, rfl⟩,
    voice_translates_agree⟩

/-- Claim C9 witness: the voice mapping evaluated at concrete inputs. -/
theorem C9_witness :
    (get_available_voice 0 128).1 = some (.ok ())
    ∧ (get_available_voice 6 128).1 = some (.error .Restricted)
    ∧ get_voice_translate 4 = get_available_voice_translate 4 :=
  ⟨(C9_voice_result_mapping.1 0 128).mpr rfl,
    (C9_voice_result_mapping.2.1 128).2.2.2.2.2,
    (C9_voice_result_mapping.2.2 4).1⟩

/-- Claim C1 counterexample: at the first code outside each known set, the
translating operations do not surface any value to the caller — the
`unreachable!()` arm (`none`, a process-aborting panic) is taken, so no
typed unknown-result-code error is returned. -/
theorem C1_counterexample :
    begin_authentication_session 0 [] 6 = none
    ∧ get_available_voice_translate 7 = none
    ∧ get_voice_translate 7 = none
    ∧ decompress_voice_translate 7 = none
    ∧ ValidateAuthTicketResponse.from_raw ⟨0, 10, 0⟩ = none :=
  ⟨rfl, rfl, rfl, rfl, rfl⟩

/-- Claim C1 amended: for every platform result code outside the known
set, each translating operation hits the `unreachable!()` arm and aborts
the process instead of returning a typed error. -/
theorem C1_unknown_codes_panic :
    ∀ (u : Nat) (t : List Nat) (c : Nat) (val : ValidateAuthTicketResponse_t),
      (6 ≤ c → begin_authentication_session u t c = none)
      ∧ (7 ≤ c → get_available_voice_translate c = none
          ∧ get_voice_translate c = none
          ∧ decompress_voice_translate c = none)
      ∧ (10 ≤ val.m_eAuthSessionResponse →
          ValidateAuthTicketResponse.from_raw val = none) := by
  intro u t c val
  refine ⟨fun h6 => ?_, fun h7 => ?_, fun h10 => ?_⟩
  · obtain ⟨k, rfl⟩ := Nat.exists_eq_add_of_le h6
    rw [Nat.add_comm]
    rfl
  · obtain ⟨k, rfl⟩ := Nat.exists_eq_add_of_le h7
    rw [Nat.add_comm]
    exact ⟨rfl, rfl, rfl⟩
  · obtain ⟨k, hk⟩ := Nat.exists_eq_add_of_le h10
    unfold ValidateAuthTicketResponse.from_raw
    rw [hk, Nat.add_comm]
    rfl

/-- Claim C1 amended witness: the panic arm taken at concrete unknown
codes. -/
theorem C1_unknown_codes_panic_witness :
    begin_authentication_session 0 [] 12 = none
    ∧ (get_available_voice_translate 12 = none
        ∧ get_voice_translate 12 = none
        ∧ decompress_voice_translate 12 = none)
    ∧ ValidateAuthTicketResponse.from_raw ⟨0, 12, 0⟩ = none :=
  ⟨(C1_unknown_codes_panic 0 [] 12 ⟨0, 12, 0⟩).1 (by decide),
    (C1_unknown_codes_panic 0 [] 12 ⟨0, 12, 0⟩).2.1 (by decide),
    (C1_unknown_codes_panic 0 [] 12 ⟨0, 12, 0⟩).2.2 (by decide)⟩

/-- Claim C4: whenever the Validation Outcome decoder returns a value,
its `steam_id` is exactly the raw payload's `m_SteamID` 64-bit field and
its `owner_steam_id` is exactly the raw payload's `m_OwnerSteamID` field;
each comes from its own source field only. -/
theorem C4_identities_roundtrip :
    ∀ (val : ValidateAuthTicketResponse_t) (v : ValidateAuthTicketResponse),
      ValidateAuthTicketResponse.from_raw val = some v →
        v.steam_id = val.m_SteamID ∧ v.owner_steam_id = val.m_OwnerSteamID := by
  intro val v h
  unfold ValidateAuthTicketResponse.from_raw at h
  cases hc : validate_response_translate val.m_eAuthSessionResponse with
  | none => rw [hc] at h; exact absurd h (by simp)
  | some r =>
      rw [hc] at h
      cases h
      exact ⟨rfl, rfl⟩

/-- Claim C4 witness: a concrete payload with distinct identities decoded
with both fields preserved. -/
theorem C4_witness :
    ({ steam_id := 42, response := Except.ok (), owner_steam_id := 7 } :
        ValidateAuthTicketResponse).steam_id = 42
    ∧ ({ steam_id := 42, response := Except.ok (), owner_steam_id := 7 } :
        ValidateAuthTicketResponse).owner_steam_id = 7 :=
  C4_identities_roundtrip ⟨42, 0, 7⟩ ⟨42, Except.ok (), 7⟩ rfl

/-- Claim C5: `authentication_session_ticket` always returns its
handle/bytes pair — the signature has no error path — and however the
platform fills the 1024-byte allocation and whatever length it reports,
the returned byte sequence has length at most 1024. -/
theorem C5_ticket_bytes_bounded :
    ∀ (h : Nat) (w : List Nat) (l : Nat),
      (authentication_session_ticket h w l).1 = h
      ∧ (authentication_session_ticket h w l).2.length ≤ 1024 := by
  intro h w l
  refine ⟨rfl, ?_⟩
  simp only [authentication_session_ticket, List.length_take]
  omega

/-- Claim C6: when `get_voice` or `decompress_voice` returns
`BufferTooSmall`, the caller's destination buffer and the bytes-written
out-parameter are exactly as they were before the call. -/
theorem C6_buffer_too_small_all_or_nothing :
    ∀ (p : VoicePlatform) (dest : List Nat) (bytes : Nat)
      (abnormal : Option Nat) (decoded compressed : List Nat) (rate : Nat),
      ((get_voice p dest bytes).result = some (.error .BufferTooSmall) →
        (get_voice p dest bytes).destAfter = dest
        ∧ (get_voice p dest bytes).bytesAfter = bytes)
      ∧ ((decompress_voice abnormal decoded compressed dest bytes rate).result
            = some (.error .BufferTooSmall) →
        (decompress_voice abnormal decoded compressed dest bytes rate).destAfter = dest
        ∧ (decompress_voice abnormal decoded compressed dest bytes rate).bytesAfter
            = bytes) := by
  intro p dest bytes abnormal decoded compressed rate
  constructor
  · intro h
    obtain ⟨ab, avail⟩ := p
    cases ab with
    | some c => exact ⟨rfl, rfl⟩
    | none =>
        by_cases he : avail.isEmpty
        · simp [get_voice, platformGetVoice, he]
        · by_cases hlt : dest.length < avail.length
          · simp [get_voice, platformGetVoice, he, hlt]
          · exact absurd h (by simp [get_voice, platformGetVoice, he, hlt,
              get_voice_translate])
  · intro h
    cases abnormal with
    | some c => exact ⟨rfl, rfl⟩
    | none =>
        by_cases hlt : dest.length < decoded.length
        · simp [decompress_voice, platformDecompressVoice, hlt]
        · exact absurd h (by simp [decompress_voice, platformDecompressVoice,
            hlt, decompress_voice_translate])

/-- Claim C6 witness: a one-byte buffer offered a two-byte frame is left
untouched by both operations. -/
theorem C6_witness :
    ((get_voice ⟨none, [1, 2]⟩ [9] 0).destAfter = [9]
      ∧ (get_voice ⟨none, [1, 2]⟩ [9] 0).bytesAfter = 0)
    ∧ ((decompress_voice none [1, 2] [3] [9] 0 48000).destAfter = [9]
      ∧ (decompress_voice none [1, 2] [3] [9] 0 48000).bytesAfter = 0) :=
  ⟨(C6_buffer_too_small_all_or_nothing ⟨none, [1, 2]⟩ [9] 0 none [1, 2] [3] 48000).1
      rfl,
    (C6_buffer_too_small_all_or_nothing ⟨none, [1, 2]⟩ [9] 0 none [1, 2] [3] 48000).2
      rfl⟩

/-- Claim C7: the begin-Ok / validation-error-event / end sequence runs
with every step locally accepted: `begin_authentication_session` on code 0
returns `Ok`, the Validation Outcome for the same identity decodes to the
`LoggedInElseWhere` error without panicking, and
`end_authentication_session` is total with no failure path, so no panic
and no session-not-found error can occur. -/
theorem C7_scenario_no_local_failure :
    ∀ (id : Nat) (ticket : List Nat),
      scenarioSteps id ticket = [.accepted, .accepted, .accepted]
      ∧ begin_authentication_session id ticket 0 = some (.ok ())
      ∧ (ValidateAuthTicketResponse.from_raw ⟨id, 4, id⟩).map (fun v => v.response)
          = some (.error .LoggedInElseWhere)
      ∧ StepOutcome.sessionNotFound ∉ scenarioSteps id ticket := by
  intro id ticket
  refine ⟨rfl, rfl, rfl, ?_⟩
  have h : scenarioSteps id ticket
      = [.accepted, .accepted, .accepted] := rfl
  rw [h]
  decide

/-- Claim C8: the Connect-Failure decoder copies the raw payload's
`m_bStillRetrying` boolean into `still_retrying` unchanged; in particular
a raw payload with the flag set decodes with the flag still `true`. -/
theorem C8_still_retrying_preserved :
    ∀ (val : SteamServerConnectFailure_t),
      (SteamServerConnectFailure.from_raw val).still_retrying = val.m_bStillRetrying
      ∧ (SteamServerConnectFailure.from_raw
          ⟨val.m_eResult, true⟩).still_retrying = true :=
  fun _ => ⟨rfl, rfl⟩

/-- Claim C10: every `get_voice` call passes `bWantCompressed = true` to
the platform and supplies no uncompressed buffer, so the platform's
deprecated uncompressed path is never taken. -/
theorem C10_always_compressed :
    ∀ (p : VoicePlatform) (dest : List Nat) (bytes : Nat),
      (get_voice p dest bytes).wantCompressed = true
      ∧ (get_voice p dest bytes).uncompressedPathUsed = false := by
  intro p dest bytes
  refine ⟨rfl, ?_⟩
  obtain ⟨ab, avail⟩ := p
  cases ab with
  | some c => rfl
  | none =>
      by_cases he : avail.isEmpty
      · simp [get_voice, platformGetVoice, he]
      · by_cases hlt : dest.length < avail.length
        · simp [get_voice, platformGetVoice, he, hlt]
        · simp [get_voice, platformGetVoice, he, hlt]

